import Mathlib

/-!
# Verification of the lenneTech/nuxt-extensions dual-mode auth core

Shallow embedding of the Cookie/JWT dual-mode authentication state machine
of `src/runtime/lib/auth-state.ts` (re-exported via `src/runtime/lib/index.ts`),
the auth-client factory and plugin registry of `src/runtime/lib/auth-client.ts`,
the `useLtAuth` composable (sign-out, session validation, passkey ceremony),
and the base64url codec of `src/runtime/utils/crypto.ts`.

Browser state (the `lt-auth-state` and `lt-jwt-token` cookies) is modelled as
an explicit record `LtStore`; network I/O is modelled by explicit backend
oracles (one value per request the code can issue, with `none` standing for a
rejected promise).  JavaScript truthiness of the string values the code tests
(`data.token`, `jwtToken`, `newToken`) is modelled by `ltTruthy`: absent
(`null`/`undefined`) and the empty string are falsy.
-/

/-- The auth mode enumeration `LtAuthMode` (`src/runtime/types`): `cookie` or `jwt`. -/
inductive LtAuthMode : Type
  | cookie : LtAuthMode
  | jwt : LtAuthMode
deriving DecidableEq, Repr

/-- Users are identified opaquely; the code only tests them for presence. -/
abbrev LtUser := String

/-- The JSON record stored in the `lt-auth-state` cookie: `{ user, authMode }`. -/
structure LtAuthState : Type where
  user : Option LtUser
  authMode : LtAuthMode
deriving DecidableEq, Repr

/-- The browser cookie state read/written by `auth-state.ts`:
`lt-auth-state` (an optional `LtAuthState` record) and `lt-jwt-token`
(an optional string). `none` models an absent/unparsable cookie. -/
structure LtStore : Type where
  authState : Option LtAuthState
  jwtToken : Option String
deriving DecidableEq, Repr

/-- JavaScript truthiness of an optional string value
(`null`, `undefined` and the empty string are falsy). -/
def ltTruthy : Option String → Bool
  | some s => !s.isEmpty
  | none => false

/-- Embeds `getLtAuthMode()`: reads `lt-auth-state` and returns
`state?.authMode || cookie-default`; absent or unparsable cookie yields `cookie`. -/
def getLtAuthMode (st : LtStore) : LtAuthMode :=
  match st.authState with
  | some s => s.authMode
  | none => .cookie

/-- Embeds `getLtJwtToken()`: reads the `lt-jwt-token` cookie (`null` when absent). -/
def getLtJwtToken (st : LtStore) : Option String :=
  st.jwtToken

/-- Embeds `setLtJwtToken(token)`: writes the `lt-jwt-token` cookie when `token` is
truthy, clears it (max-age 0) otherwise. -/
def setLtJwtToken (st : LtStore) (token : Option String) : LtStore :=
  if ltTruthy token then { st with jwtToken := token }
  else { st with jwtToken := none }

/-- Embeds `setLtAuthMode(mode)`: merges `authMode: mode` into the existing
`lt-auth-state` record, starting from `{ user: null, authMode: mode }`
when no record exists. -/
def setLtAuthMode (st : LtStore) (mode : LtAuthMode) : LtStore :=
  match st.authState with
  | some s => { st with authState := some { s with authMode := mode } }
  | none => { st with authState := some { user := none, authMode := mode } }

/-- Embeds `isLtAuthenticated()`: `!!state?.user` on the `lt-auth-state` record. -/
def isLtAuthenticated (st : LtStore) : Bool :=
  match st.authState with
  | some s => s.user.isSome
  | none => false

/-- The user recorded in the `lt-auth-state` cookie, if any. -/
def ltStoredUser (st : LtStore) : Option LtUser :=
  st.authState.bind (·.user)

/-- The response of one `GET {apiBase}/token` request as `attemptLtJwtSwitch`
observes it: `ok` is `response.ok`; `json` is `none` when `response.json()`
rejects, and otherwise carries the value of `data.token`
(`none` = absent/null). -/
structure LtTokenResponse : Type where
  ok : Bool
  json : Option (Option String)
deriving DecidableEq, Repr

/-- Backend oracle for one token-endpoint request; `none` models the
`fetch` promise rejecting. -/
abbrev LtTokenBackend := Option LtTokenResponse

/-- Embeds `attemptLtJwtSwitch(basePath)`: fetches `{apiBase}/token`; on an ok
response whose body has a truthy `token`, stores the token, sets the mode to
`jwt` and returns `true`; on every other outcome (network error, non-ok
status, body parse failure, missing token) returns `false`.  Returns the
flag together with the resulting cookie state. -/
def attemptLtJwtSwitch (b : LtTokenBackend) (st : LtStore) : Bool × LtStore :=
  match b with
  | none => (false, st)
  | some resp =>
    if resp.ok then
      match resp.json with
      | none => (false, st)
      | some tokenField =>
        if ltTruthy tokenField then
          (true, setLtAuthMode (setLtJwtToken st tokenField) .jwt)
        else (false, st)
    else (false, st)

/-- Whether a token backend grants a switch (ok response with truthy token).
`attemptLtJwtSwitch` succeeds exactly on such backends, whatever the state. -/
def ltTokenGranted (b : LtTokenBackend) : Bool :=
  match b with
  | none => false
  | some resp =>
    resp.ok && (match resp.json with
      | none => false
      | some tokenField => ltTruthy tokenField)

/-- Embeds `Headers` modelled as an association list; `headers.set(k, v)` replaces
any existing entry for `k` and appends the new one. -/
def setLtHeader (hs : List (String × String)) (k v : String) :
    List (String × String) :=
  hs.filter (fun p => p.1 ≠ k) ++ [(k, v)]

/-- A plain HTTP response as `ltAuthFetch` observes it (only the status
matters to the protocol; the body is opaque). -/
structure LtResponse : Type where
  status : Nat
deriving DecidableEq, Repr

/-- Backend oracle for one `ltAuthFetch` call: the response to the first
issue of the original request, the token-endpoint behaviour, and the
response to the (at most one) re-issued request.  `none` models a rejected
`fetch` promise. -/
structure LtFetchBackend : Type where
  firstResp : Option LtResponse
  tokenResp : LtTokenBackend
  retryResp : Option LtResponse
deriving DecidableEq, Repr

/-- Observable outcome of one `ltAuthFetch` call: the final result (`none` =
the call rejected), how often the original request and the token endpoint
were issued, the final cookie state, and the headers carried by the
re-issued request when one was made. -/
structure LtFetchOutcome : Type where
  result : Option LtResponse
  origCalls : Nat
  tokenCalls : Nat
  store : LtStore
  retryHeaders : Option (List (String × String))
deriving DecidableEq, Repr

/-- Embedding of the `ltAuthFetch(input, init)` closure returned by
`createLtAuthFetch(basePath)`:
copies the caller headers, adds `Authorization: Bearer <token>` in jwt
mode with a truthy token, issues the request with ambient credentials; on a
401 in cookie mode with an authenticated session it calls
`attemptLtJwtSwitch` once and, if that succeeded and a truthy token is now
stored, re-issues the original request once with the new bearer header;
otherwise it returns the first response. -/
def ltAuthFetch (b : LtFetchBackend) (st : LtStore)
    (initHeaders : List (String × String)) : LtFetchOutcome :=
  let authMode := getLtAuthMode st
  let jwtToken := getLtJwtToken st
  let headers :=
    if authMode = .jwt ∧ ltTruthy jwtToken then
      setLtHeader initHeaders "Authorization" ("Bearer " ++ jwtToken.getD "")
    else initHeaders
  match b.firstResp with
  | none =>
    { result := none, origCalls := 1, tokenCalls := 0, store := st,
      retryHeaders := none }
  | some response =>
    if response.status = 401 ∧ authMode = .cookie ∧ isLtAuthenticated st then
      let sw := attemptLtJwtSwitch b.tokenResp st
      if sw.1 then
        let newToken := getLtJwtToken sw.2
        if ltTruthy newToken then
          let headers2 :=
            setLtHeader headers "Authorization" ("Bearer " ++ newToken.getD "")
          { result := b.retryResp, origCalls := 2, tokenCalls := 1,
            store := sw.2, retryHeaders := some headers2 }
        else
          { result := some response, origCalls := 1, tokenCalls := 1,
            store := sw.2, retryHeaders := none }
      else
        { result := some response, origCalls := 1, tokenCalls := 1,
          store := sw.2, retryHeaders := none }
    else
      { result := some response, origCalls := 1, tokenCalls := 0, store := st,
        retryHeaders := none }

/-!
## Auth client factory (`src/runtime/lib/auth-client.ts`)

`ltSha256` delegates to the Web Crypto API; the digest function is therefore
an abstract parameter `sha : String → String` of the wrappers below.  Each
`…Sent` definition embeds the argument object that the corresponding
override in `createLtAuthClient` passes to the underlying provider client.
-/

/-- Parameters of `signIn.email`. -/
structure LtSignInEmailParams : Type where
  email : String
  password : String
  rememberMe : Option Bool
deriving DecidableEq, Repr

/-- Embeds `signIn.email` override: `baseClient.signIn.email({ ...params, password:
hashedPassword }, options)`. -/
def ltSignInEmailSent (sha : String → String) (p : LtSignInEmailParams) :
    LtSignInEmailParams :=
  { p with password := sha p.password }

/-- Parameters of `signUp.email` (`& Record<string, unknown>` modelled as an
extra association list spread through unchanged). -/
structure LtSignUpEmailParams : Type where
  email : String
  name : String
  password : String
  extra : List (String × String)
deriving DecidableEq, Repr

/-- Embeds `signUp.email` override: `baseClient.signUp.email({ ...params, password:
hashedPassword }, options)`. -/
def ltSignUpEmailSent (sha : String → String) (p : LtSignUpEmailParams) :
    LtSignUpEmailParams :=
  { p with password := sha p.password }

/-- Parameters of `changePassword`. -/
structure LtChangePasswordParams : Type where
  currentPassword : String
  newPassword : String
deriving DecidableEq, Repr

/-- Embeds `changePassword` override: both passwords hashed, then
`baseClient.changePassword({ currentPassword: hashedCurrent, newPassword:
hashedNew }, options)`. -/
def ltChangePasswordSent (sha : String → String) (p : LtChangePasswordParams) :
    LtChangePasswordParams :=
  { currentPassword := sha p.currentPassword, newPassword := sha p.newPassword }

/-- Parameters of `resetPassword`. -/
structure LtResetPasswordParams : Type where
  newPassword : String
  token : String
deriving DecidableEq, Repr

/-- Embeds `resetPassword` override: `baseClient.resetPassword({ newPassword:
hashedPassword, token: params.token }, options)`. -/
def ltResetPasswordSent (sha : String → String) (p : LtResetPasswordParams) :
    LtResetPasswordParams :=
  { newPassword := sha p.newPassword, token := p.token }

/-- Parameters of the 2FA overrides (`enable`, `disable`,
`generateBackupCodes`): a single password. -/
structure LtTwoFactorPasswordParams : Type where
  password : String
deriving DecidableEq, Repr

/-- Embeds `twoFactor.enable` override: `baseClient.twoFactor.enable({ password:
hashedPassword }, options)`. -/
def ltTwoFactorEnableSent (sha : String → String)
    (p : LtTwoFactorPasswordParams) : LtTwoFactorPasswordParams :=
  { password := sha p.password }

/-- Embeds `twoFactor.disable` override: `baseClient.twoFactor.disable({ password:
hashedPassword }, options)`. -/
def ltTwoFactorDisableSent (sha : String → String)
    (p : LtTwoFactorPasswordParams) : LtTwoFactorPasswordParams :=
  { password := sha p.password }

/-- Embeds `twoFactor.generateBackupCodes` override:
`baseClient.twoFactor.generateBackupCodes({ password: hashedPassword },
options)`. -/
def ltTwoFactorGenerateBackupCodesSent (sha : String → String)
    (p : LtTwoFactorPasswordParams) : LtTwoFactorPasswordParams :=
  { password := sha p.password }

/-!
## Plugin registry & client singleton (`src/runtime/lib/auth-client.ts`)

The module-level variables `_ltAuthPluginRegistry`,
`_pluginsChangedAfterCreation`, `_authClientSingleton` and
`_lastClientConfig` are modelled as an explicit record
`LtClientModuleState`; the number of `createLtAuthClient` invocations is
recorded in `created` so that the claim about constructing exactly one new instance is
observable.
-/

/-- A Better Auth client plugin: the three built-ins pushed by
`createLtAuthClient` plus opaque external plugins (config- or
registry-supplied). -/
inductive LtPlugin : Type
  | adminClient : LtPlugin
  | twoFactorClient (redirectPath : String) : LtPlugin
  | passkeyClient : LtPlugin
  | external (tag : String) : LtPlugin
deriving DecidableEq, Repr

/-- The configuration fields of `LtAuthClientConfig` that determine the
plugin list (defaults as in the source: all capabilities on, redirect to
`/auth/2fa`, no external plugins). -/
structure LtAuthClientConfig : Type where
  enableAdmin : Bool := true
  enableTwoFactor : Bool := true
  enablePasskey : Bool := true
  twoFactorRedirectPath : String := "/auth/2fa"
  plugins : List LtPlugin := []
deriving DecidableEq, Repr

/-- A constructed auth client: its plugin list and a creation stamp (which
invocation of `createLtAuthClient` built it) distinguishing instances. -/
structure LtClient : Type where
  plugins : List LtPlugin
  instanceId : Nat
deriving DecidableEq, Repr

/-- Plugin list built by `createLtAuthClient(config)`: admin, twoFactor, passkey
(each when enabled, in this order), then `config.plugins`, then the global
registry. -/
def ltClientPlugins (cfg : LtAuthClientConfig) (registry : List LtPlugin) :
    List LtPlugin :=
  ((if cfg.enableAdmin then [LtPlugin.adminClient] else []) ++
    (if cfg.enableTwoFactor then [LtPlugin.twoFactorClient cfg.twoFactorRedirectPath]
      else []) ++
    (if cfg.enablePasskey then [LtPlugin.passkeyClient] else [])) ++
  cfg.plugins ++ registry

/-- Embeds `createLtAuthClient(config)` as far as the registry claims observe it:
builds the plugin list from the config and the registry. -/
def createLtAuthClient (cfg : LtAuthClientConfig) (registry : List LtPlugin)
    (instanceId : Nat) : LtClient :=
  { plugins := ltClientPlugins cfg registry, instanceId := instanceId }

/-- The module-level mutable state of `auth-client.ts`. -/
structure LtClientModuleState : Type where
  registry : List LtPlugin
  pluginsChanged : Bool
  singleton : Option LtClient
  lastConfig : Option LtAuthClientConfig
  created : Nat
deriving DecidableEq, Repr

/-- Embeds `registerLtAuthPlugins(plugins)`: appends to the registry; when the
singleton already exists, marks it for recreation. -/
def registerLtAuthPlugins (ms : LtClientModuleState) (ps : List LtPlugin) :
    LtClientModuleState :=
  { ms with
    registry := ms.registry ++ ps,
    pluginsChanged := if ms.singleton.isSome then true else ms.pluginsChanged }

/-- Embeds `getOrCreateLtAuthClient(config?)`: stores a supplied config, discards a
stale singleton (plugins changed after creation), then creates the client
from the last stored config (default config when none) if none exists, and
returns it. -/
def getOrCreateLtAuthClient (ms : LtClientModuleState)
    (cfg? : Option LtAuthClientConfig) : LtClient × LtClientModuleState :=
  let ms1 :=
    match cfg? with
    | some cfg => { ms with lastConfig := some cfg }
    | none => ms
  let ms2 :=
    if ms1.pluginsChanged ∧ ms1.singleton.isSome then
      { ms1 with singleton := none, pluginsChanged := false }
    else ms1
  match ms2.singleton with
  | some c => (c, ms2)
  | none =>
    let c := createLtAuthClient (ms2.lastConfig.getD {}) ms2.registry ms2.created
    (c, { ms2 with singleton := some c, created := ms2.created + 1 })

/-!
## Base64url codec (`src/runtime/utils/crypto.ts`)

`ltArrayBufferToBase64Url` builds a latin1 string from the bytes
(`String.fromCharCode`), base64-encodes it with `btoa`, then substitutes
`+`→`-`, `/`→`_` and strips `=`.  `ltBase64UrlToUint8Array` substitutes
back, re-pads to a multiple of four and decodes with `atob` (which throws —
modelled as `none` — on characters outside the base64 alphabet or misplaced
padding).  Buffers are modelled as lists of byte values.
-/

/-- The standard base64 alphabet: sextet value to character. -/
def b64Char (n : Nat) : Char :=
  if n < 26 then Char.ofNat (65 + n)
  else if n < 52 then Char.ofNat (97 + (n - 26))
  else if n < 62 then Char.ofNat (48 + (n - 52))
  else if n = 62 then '+'
  else '/'

/-- The standard base64 alphabet: character to sextet value (`none` for a
character outside the alphabet, where `atob` throws). -/
def b64Index (c : Char) : Option Nat :=
  if 'A' ≤ c ∧ c ≤ 'Z' then some (c.toNat - 65)
  else if 'a' ≤ c ∧ c ≤ 'z' then some (c.toNat - 97 + 26)
  else if '0' ≤ c ∧ c ≤ '9' then some (c.toNat - 48 + 52)
  else if c = '+' then some 62
  else if c = '/' then some 63
  else none

/-- The encoder character substitution: `+`→`-`, `/`→`_`
(the two global replaces the source performs before padding removal). -/
def b64UrlSubst (c : Char) : Char :=
  if c = '+' then '-' else if c = '/' then '_' else c

/-- The decoder character substitution: `-`→`+`, `_`→`/`
(the two global replaces the source performs before re-padding). -/
def b64UrlUnsubst (c : Char) : Char :=
  if c = '-' then '+' else if c = '_' then '/' else c

/-- Embeds `btoa` on a latin1 string, three bytes to four characters with `=`
padding on the final partial group. -/
def btoaChunks : List Nat → List Char
  | [] => []
  | [b0] => [b64Char (b0 / 4), b64Char (b0 % 4 * 16), '=', '=']
  | [b0, b1] =>
    [b64Char (b0 / 4), b64Char (b0 % 4 * 16 + b1 / 16),
      b64Char (b1 % 16 * 4), '=']
  | b0 :: b1 :: b2 :: rest =>
    b64Char (b0 / 4) :: b64Char (b0 % 4 * 16 + b1 / 16) ::
    b64Char (b1 % 16 * 4 + b2 / 64) :: b64Char (b2 % 64) :: btoaChunks rest

/-- Embeds `ltArrayBufferToBase64Url(buffer)`: `btoa` of the byte string, then the
URL-safe substitution, then `=` removal. -/
def ltArrayBufferToBase64Url (bytes : List Nat) : List Char :=
  ((btoaChunks bytes).map b64UrlSubst).filter (fun c => c != '=')

/-- Embeds `atob`: decodes groups of four characters; `=` padding is allowed only
as the final one or two characters; any other character outside the
alphabet, or a trailing group shorter than four characters, throws
(modelled as `none`). -/
def atobChunks : List Char → Option (List Nat)
  | c0 :: c1 :: c2 :: c3 :: rest =>
    if rest.isEmpty && (c2 == '=') && (c3 == '=') then
      match b64Index c0, b64Index c1 with
      | some n0, some n1 => some [n0 * 4 + n1 / 16]
      | _, _ => none
    else if rest.isEmpty && (c3 == '=') then
      match b64Index c0, b64Index c1, b64Index c2 with
      | some n0, some n1, some n2 =>
        some [n0 * 4 + n1 / 16, n1 % 16 * 16 + n2 / 4]
      | _, _, _ => none
    else
      match b64Index c0, b64Index c1, b64Index c2, b64Index c3,
          atobChunks rest with
      | some n0, some n1, some n2, some n3, some bs =>
        some ((n0 * 4 + n1 / 16) :: (n1 % 16 * 16 + n2 / 4) ::
          (n2 % 4 * 64 + n3) :: bs)
      | _, _, _, _, _ => none
  | [] => some []
  | _ => none

/-- Embeds `ltBase64UrlToUint8Array(base64url)`: substitute back, re-pad with `=`
to a multiple of four, `atob`. -/
def ltBase64UrlToUint8Array (s : List Char) : Option (List Nat) :=
  let base64 := s.map b64UrlUnsubst
  let padded := base64 ++ List.replicate ((4 - base64.length % 4) % 4) '='
  atobChunks padded

/-!
## The `useLtAuth` composable (`src/runtime/composables/auth/use-lt-auth.ts`)

The reactive composable state (`authState` / `jwtToken` cookies plus the
`isLoading` ref) is the record `LtCompState`.  The provider SDK and every
endpoint the composable can hit are explicit oracles.  A fire-and-forget
`switchToJwtMode().catch(() => {})` is modelled as having settled by the
time the resulting state is observed.
-/

/-- The `useLtAuth` reactive state: the `lt-auth-state` cookie ref, the
`lt-jwt-token` cookie ref, and the `isLoading` flag. -/
structure LtCompState : Type where
  authState : Option LtAuthState
  jwtToken : Option String
  isLoading : Bool
deriving DecidableEq, Repr

/-- Embedding of the `authMode` computed ref: the stored mode, defaulting to `cookie`. -/
def getAuthModeC (st : LtCompState) : LtAuthMode :=
  match st.authState with
  | some s => s.authMode
  | none => .cookie

/-- Embedding of the `isJwtMode` computed ref: whether the mode equals `jwt`. -/
def isJwtModeC (st : LtCompState) : Bool :=
  match getAuthModeC st with
  | .jwt => true
  | .cookie => false

/-- Embeds `isAuthenticated` computed ref: `!!user.value` where
`user = authState.value?.user ?? null`. -/
def isAuthenticatedC (st : LtCompState) : Bool :=
  (st.authState.bind (·.user)).isSome

/-- Embeds `setUser(userData, mode)`: wholesale replaces the AuthState record
(reactive ref and browser cookie). -/
def setUserC (st : LtCompState) (u : Option LtUser) (mode : LtAuthMode) :
    LtCompState :=
  { st with authState := some { user := u, authMode := mode } }

/-- Embeds `clearUser()`: resets the AuthState record to
`user = null` with mode `cookie` and clears the token ref/cookies. -/
def clearUserC (st : LtCompState) : LtCompState :=
  { st with
    authState := some { user := none, authMode := LtAuthMode.cookie },
    jwtToken := none }

/-- Embeds `switchToJwtMode()`: fetches `{apiBase}/token`; on an ok response with
a truthy `token`, stores the token and — when an AuthState record exists —
merges mode `jwt` into it, returning `true`; every other outcome
returns `false`. -/
def switchToJwtModeC (b : LtTokenBackend) (st : LtCompState) :
    Bool × LtCompState :=
  match b with
  | none => (false, st)
  | some resp =>
    if resp.ok then
      match resp.json with
      | none => (false, st)
      | some tokenField =>
        if ltTruthy tokenField then
          let st1 := { st with jwtToken := tokenField }
          let st2 :=
            match st1.authState with
            | some s => { st1 with authState := some { s with authMode := .jwt } }
            | none => st1
          (true, st2)
        else (false, st)
    else (false, st)

/-- Embedding of the composable method `signOut(options?)`: sets `isLoading`, awaits
`authClient.signOut(options)` (the oracle `provider` — `.error` models the
promise rejecting), on normal return calls `clearUser()` and returns the
result; the `finally` block resets `isLoading` on both paths. -/
def signOutC (provider : Except Unit Unit) (st : LtCompState) :
    Except Unit Unit × LtCompState :=
  let st1 := { st with isLoading := true }
  match provider with
  | .ok r => (.ok r, { clearUserC st1 with isLoading := false })
  | .error e => (.error e, { st1 with isLoading := false })

/-- Embeds `validateSession()`: queries the provider session (`sess`; `.error`
models `useSession`/the pending wait throwing, handled by the `catch` that
returns `!!authState.value?.user`).  A session user is adopted via
`setUser` with mode `cookie` followed by a background `switchToJwtMode`;
otherwise a locally stored user is trusted (with the same background
switch); otherwise returns `false`. -/
def validateSessionC (sess : Except Unit (Option LtUser))
    (tokenB : LtTokenBackend) (st : LtCompState) : Bool × LtCompState :=
  match sess with
  | .error _ => (isAuthenticatedC st, st)
  | .ok sessionUser =>
    match sessionUser with
    | some u =>
      let st1 := setUserC st (some u) .cookie
      (true, (switchToJwtModeC tokenB st1).2)
    | none =>
      if isAuthenticatedC st then (true, (switchToJwtModeC tokenB st).2)
      else (false, st)

/-- An HTTP response carrying a JSON body of shape `α`
(`json = none` models `response.json()` rejecting). -/
structure LtRespC (α : Type) : Type where
  status : Nat
  json : Option α
deriving DecidableEq, Repr

/-- Embeds `Response.ok`: status in the 2xx range. -/
def ltRespOk {α : Type} (r : LtRespC α) : Bool :=
  (200 ≤ r.status) && (r.status ≤ 299)

/-- Backend oracle for one `fetchWithAuth` call: the first response, the
token-endpoint behaviour for a potential cookie→jwt switch, and the retry
response. -/
structure LtFetchWABackend (α : Type) : Type where
  resp : Option (LtRespC α)
  tokenB : LtTokenBackend
  retryResp : Option (LtRespC α)
deriving DecidableEq, Repr

/-- Embedding of the composable method `fetchWithAuth(url, options)`: issues the request
(bearer header and credentials mode do not affect the modelled state); on a
401 while not in jwt mode with an authenticated session, calls
`switchToJwtMode()` once and, when it succeeded, re-issues the request once;
otherwise returns the first response. -/
def fetchWithAuthC {α : Type} (fb : LtFetchWABackend α) (st : LtCompState) :
    Option (LtRespC α) × LtCompState :=
  match fb.resp with
  | none => (none, st)
  | some r =>
    if (r.status == 401) && !(isJwtModeC st) && isAuthenticatedC st then
      let sw := switchToJwtModeC fb.tokenB st
      if sw.1 then (fb.retryResp, sw.2) else (some r, sw.2)
    else (some r, st)

/-- Body of the `generate-authenticate-options` response: the base64url
challenge (decoded with the codec above) and the correlation id. -/
structure LtPasskeyOptionsBody : Type where
  challenge : List Char
  challengeId : Option String
deriving DecidableEq, Repr

/-- A platform credential as returned by `navigator.credentials.get`. -/
structure LtCredential : Type where
  id : String
  rawId : List Nat
  authenticatorData : List Nat
  clientDataJSON : List Nat
  signature : List Nat
  userHandle : Option (List Nat)
deriving DecidableEq, Repr

/-- The encoded credential body POSTed to `verify-authentication`:
every binary field base64url-encoded. -/
structure LtCredentialBody : Type where
  id : String
  rawId : List Char
  authenticatorData : List Char
  clientDataJSON : List Char
  signature : List Char
  userHandle : Option (List Char)
deriving DecidableEq, Repr

/-- Step 4 of the ceremony: encode the binary fields of the credential. -/
def ltCredentialBody (c : LtCredential) : LtCredentialBody :=
  { id := c.id,
    rawId := ltArrayBufferToBase64Url c.rawId,
    authenticatorData := ltArrayBufferToBase64Url c.authenticatorData,
    clientDataJSON := ltArrayBufferToBase64Url c.clientDataJSON,
    signature := ltArrayBufferToBase64Url c.signature,
    userHandle := c.userHandle.map ltArrayBufferToBase64Url }

/-- Body of the `verify-authentication` response: `result.user` and
`result.session?.token`. -/
structure LtPasskeyVerifyBody : Type where
  user : Option LtUser
  sessionToken : Option String
deriving DecidableEq, Repr

/-- Body of the `get-session` response. -/
structure LtSessionBody : Type where
  user : Option LtUser
deriving DecidableEq, Repr

/-- The composable type `LtPasskeyAuthResult` as far as the state machine is
concerned: the success flag and the adopted user. -/
structure LtPasskeyAuthResult : Type where
  success : Bool
  user : Option LtUser
deriving DecidableEq, Repr

/-- Oracles for one `authenticateWithPasskey()` run: the options fetch, the
platform credential call (`none` = the promise rejects, `some none` = null
credential), the verification fetch, the background token fetch after a
user is adopted, the supplementary `get-session` fetch, and the background
token fetch after a session-recovered user is adopted. -/
structure LtPasskeyEnv : Type where
  optionsFW : LtFetchWABackend LtPasskeyOptionsBody
  credential : Option (Option LtCredential)
  verifyFW : LtFetchWABackend LtPasskeyVerifyBody
  postUserTokenB : LtTokenBackend
  sessionFW : LtFetchWABackend LtSessionBody
  postSessionTokenB : LtTokenBackend
deriving DecidableEq, Repr

/-- Embeds `authenticateWithPasskey()` without the `isLoading` bracket: fetch
options via `fetchWithAuth`, decode the challenge, obtain a platform
credential, encode it, POST it to `verify-authentication` via
`fetchWithAuth` (its body is parsed before the ok check); on success adopt
`result.user` in cookie mode (plus background token fetch), or — given only
a session token — adopt jwt mode directly and try `get-session` to recover
the user (tolerating failure).  Every thrown error (rejected fetch, failed
challenge decode, rejected platform call, failed body parse) is caught and
reported as an unsuccessful result, leaving the state reached so far. -/
def authenticateWithPasskeyBody (env : LtPasskeyEnv) (st : LtCompState) :
    LtPasskeyAuthResult × LtCompState :=
  match fetchWithAuthC env.optionsFW st with
  | (none, st1) => ({ success := false, user := none }, st1)
  | (some oResp, st1) =>
    if !ltRespOk oResp then ({ success := false, user := none }, st1)
    else
      match oResp.json with
      | none => ({ success := false, user := none }, st1)
      | some opts =>
        match ltBase64UrlToUint8Array opts.challenge with
        | none => ({ success := false, user := none }, st1)
        | some _challengeBuffer =>
          match env.credential with
          | none => ({ success := false, user := none }, st1)
          | some none => ({ success := false, user := none }, st1)
          | some (some cred) =>
            let _credentialBody := ltCredentialBody cred
            match fetchWithAuthC env.verifyFW st1 with
            | (none, st2) => ({ success := false, user := none }, st2)
            | (some vResp, st2) =>
              match vResp.json with
              | none => ({ success := false, user := none }, st2)
              | some result =>
                if !ltRespOk vResp then
                  ({ success := false, user := none }, st2)
                else
                  match result.user with
                  | some u =>
                    let st3 := setUserC st2 (some u) .cookie
                    let st4 := (switchToJwtModeC env.postUserTokenB st3).2
                    ({ success := true, user := some u }, st4)
                  | none =>
                    if ltTruthy result.sessionToken then
                      let st3 := { st2 with jwtToken := result.sessionToken }
                      let st4 :=
                        match st3.authState with
                        | some s =>
                          { st3 with authState := some { s with authMode := .jwt } }
                        | none => st3
                      match fetchWithAuthC env.sessionFW st4 with
                      | (none, st5) => ({ success := true, user := none }, st5)
                      | (some sResp, st5) =>
                        if ltRespOk sResp then
                          match sResp.json with
                          | none => ({ success := true, user := none }, st5)
                          | some sData =>
                            match sData.user with
                            | some su =>
                              let st6 := setUserC st5 (some su) .cookie
                              let st7 :=
                                (switchToJwtModeC env.postSessionTokenB st6).2
                              ({ success := true, user := some su }, st7)
                            | none => ({ success := true, user := none }, st5)
                        else ({ success := true, user := none }, st5)
                    else ({ success := true, user := none }, st2)

/-- Embeds `authenticateWithPasskey()`: the ceremony body bracketed by the
`isLoading` flag (`try`/`finally`). -/
def authenticateWithPasskeyC (env : LtPasskeyEnv) (st : LtCompState) :
    LtPasskeyAuthResult × LtCompState :=
  let p := authenticateWithPasskeyBody env { st with isLoading := true }
  (p.1, { p.2 with isLoading := false })

theorem attemptLtJwtSwitch_fst (b : LtTokenBackend) (st : LtStore) :
    (attemptLtJwtSwitch b st).1 = ltTokenGranted b := by
  cases b with
  | none => rfl
  | some resp =>
    simp only [attemptLtJwtSwitch, ltTokenGranted]
    cases h : resp.ok <;> cases hj : resp.json <;> simp [h, hj]
    split <;> simp_all

lemma setLtHeader_mem (hs : List (String × String)) (k v : String) :
    (k, v) ∈ setLtHeader hs k v := by
  simp [setLtHeader]

lemma ltTruthy_some_ne (tok : String) (h : tok ≠ "") :
    ltTruthy (some tok) = true := by
  have he : tok.isEmpty = false := by
    rcases hc : tok.isEmpty with _ | _
    · rfl
    · exact absurd ((String.isEmpty_iff tok).mp hc) h
  simp [ltTruthy, he]

/-- C2: a 401 in cookie mode with an authenticated session, followed by a
successful token grant, makes `ltAuthFetch` return the response of the
re-issued original request (issued exactly twice in total, the retry
carrying the new bearer Authorization header), and afterwards the stored
mode is `jwt` and the stored token is the issued one. -/
theorem ltAuthFetch_cookie401_switch_success
    (b : LtFetchBackend) (st : LtStore) (hs : List (String × String))
    (s : LtAuthState) (u : LtUser) (r r2 : LtResponse) (tok : String)
    (hstate : st.authState = some s) (huser : s.user = some u)
    (hmode : s.authMode = .cookie)
    (hfirst : b.firstResp = some r) (h401 : r.status = 401)
    (htok : b.tokenResp = some { ok := true, json := some (some tok) })
    (htokne : tok ≠ "")
    (hretry : b.retryResp = some r2) :
    (ltAuthFetch b st hs).result = some r2 ∧
    (ltAuthFetch b st hs).origCalls = 2 ∧
    (ltAuthFetch b st hs).tokenCalls = 1 ∧
    getLtAuthMode (ltAuthFetch b st hs).store = .jwt ∧
    getLtJwtToken (ltAuthFetch b st hs).store = some tok ∧
    (ltAuthFetch b st hs).retryHeaders =
      some (setLtHeader hs "Authorization" ("Bearer " ++ tok)) ∧
    ("Authorization", "Bearer " ++ tok) ∈
      setLtHeader hs "Authorization" ("Bearer " ++ tok) := by
  have htr := ltTruthy_some_ne tok htokne
  have hm : getLtAuthMode st = .cookie := by
    simp [getLtAuthMode, hstate, hmode]
  have ha : isLtAuthenticated st = true := by
    simp [isLtAuthenticated, hstate, huser]
  have hsw : attemptLtJwtSwitch b.tokenResp st =
      (true, setLtAuthMode (setLtJwtToken st (some tok)) .jwt) := by
    simp [attemptLtJwtSwitch, htok, htr]
  have hjwt : setLtJwtToken st (some tok) = { st with jwtToken := some tok } := by
    simp [setLtJwtToken, htr]
  simp only [ltAuthFetch, hm, hfirst, h401, ha, hsw, hjwt, hretry]
  simp [setLtAuthMode, getLtAuthMode, getLtJwtToken, hstate, htr, setLtHeader_mem]

/-- C2 witness at concrete inputs. -/
theorem ltAuthFetch_cookie401_switch_success_witness :
    (ltAuthFetch
        { firstResp := some ⟨401⟩,
          tokenResp := some { ok := true, json := some (some "tok") },
          retryResp := some ⟨200⟩ }
        { authState := some { user := some "alice", authMode := .cookie },
          jwtToken := none } []).result = some ⟨200⟩ ∧
    (ltAuthFetch
        { firstResp := some ⟨401⟩,
          tokenResp := some { ok := true, json := some (some "tok") },
          retryResp := some ⟨200⟩ }
        { authState := some { user := some "alice", authMode := .cookie },
          jwtToken := none } []).origCalls = 2 ∧
    (ltAuthFetch
        { firstResp := some ⟨401⟩,
          tokenResp := some { ok := true, json := some (some "tok") },
          retryResp := some ⟨200⟩ }
        { authState := some { user := some "alice", authMode := .cookie },
          jwtToken := none } []).tokenCalls = 1 ∧
    getLtAuthMode (ltAuthFetch
        { firstResp := some ⟨401⟩,
          tokenResp := some { ok := true, json := some (some "tok") },
          retryResp := some ⟨200⟩ }
        { authState := some { user := some "alice", authMode := .cookie },
          jwtToken := none } []).store = .jwt ∧
    getLtJwtToken (ltAuthFetch
        { firstResp := some ⟨401⟩,
          tokenResp := some { ok := true, json := some (some "tok") },
          retryResp := some ⟨200⟩ }
        { authState := some { user := some "alice", authMode := .cookie },
          jwtToken := none } []).store = some "tok" ∧
    (ltAuthFetch
        { firstResp := some ⟨401⟩,
          tokenResp := some { ok := true, json := some (some "tok") },
          retryResp := some ⟨200⟩ }
        { authState := some { user := some "alice", authMode := .cookie },
          jwtToken := none } []).retryHeaders =
      some (setLtHeader [] "Authorization" ("Bearer " ++ "tok")) ∧
    ("Authorization", "Bearer " ++ "tok") ∈
      setLtHeader [] "Authorization" ("Bearer " ++ "tok") :=
  ltAuthFetch_cookie401_switch_success _ _ []
    { user := some "alice", authMode := .cookie } "alice" ⟨401⟩ ⟨200⟩ "tok"
    rfl rfl rfl rfl rfl rfl (by decide) rfl

/-- C3: a 401 in cookie mode on an unauthenticated session makes
`ltAuthFetch` return the original 401 response unchanged, without ever
calling the token endpoint and without touching the stored state. -/
theorem ltAuthFetch_anonymous_401_no_switch
    (b : LtFetchBackend) (st : LtStore) (hs : List (String × String))
    (r : LtResponse)
    (hmode : getLtAuthMode st = .cookie)
    (hanon : isLtAuthenticated st = false)
    (hfirst : b.firstResp = some r) (h401 : r.status = 401) :
    (ltAuthFetch b st hs).tokenCalls = 0 ∧
    (ltAuthFetch b st hs).result = some r ∧
    (ltAuthFetch b st hs).store = st := by
  simp [ltAuthFetch, hmode, hanon, hfirst, h401]

/-- C3 witness at concrete inputs. -/
theorem ltAuthFetch_anonymous_401_no_switch_witness :
    (ltAuthFetch
        { firstResp := some ⟨401⟩,
          tokenResp := some { ok := true, json := some (some "tok") },
          retryResp := some ⟨200⟩ }
        { authState := none, jwtToken := none } []).tokenCalls = 0 ∧
    (ltAuthFetch
        { firstResp := some ⟨401⟩,
          tokenResp := some { ok := true, json := some (some "tok") },
          retryResp := some ⟨200⟩ }
        { authState := none, jwtToken := none } []).result = some ⟨401⟩ ∧
    (ltAuthFetch
        { firstResp := some ⟨401⟩,
          tokenResp := some { ok := true, json := some (some "tok") },
          retryResp := some ⟨200⟩ }
        { authState := none, jwtToken := none } []).store =
      { authState := none, jwtToken := none } :=
  ltAuthFetch_anonymous_401_no_switch _ _ [] ⟨401⟩ rfl rfl rfl rfl

/-- C4: whatever the backend does and whatever state is stored, one
`ltAuthFetch` call issues the original request at most twice and the token
endpoint at most once. -/
theorem ltAuthFetch_bounded_requests
    (b : LtFetchBackend) (st : LtStore) (hs : List (String × String)) :
    (ltAuthFetch b st hs).origCalls ≤ 2 ∧
    (ltAuthFetch b st hs).tokenCalls ≤ 1 := by
  simp only [ltAuthFetch]
  cases b.firstResp with
  | none => simp
  | some r =>
    simp only []
    split
    · split
      · split <;> simp
      · simp
    · simp

/-- C9: `setLtAuthMode` changes only the mode: the stored user (hence
`isLtAuthenticated`) and the token cookie are untouched, the new mode is
recorded, and an absent record is created as `{ user: null, authMode: m }`. -/
theorem setLtAuthMode_frame (st : LtStore) (m : LtAuthMode) :
    ltStoredUser (setLtAuthMode st m) = ltStoredUser st ∧
    isLtAuthenticated (setLtAuthMode st m) = isLtAuthenticated st ∧
    getLtAuthMode (setLtAuthMode st m) = m ∧
    (setLtAuthMode st m).jwtToken = st.jwtToken ∧
    (st.authState = none →
      (setLtAuthMode st m).authState = some { user := none, authMode := m }) := by
  cases h : st.authState <;>
    simp [setLtAuthMode, ltStoredUser, isLtAuthenticated, getLtAuthMode, h]

/-- C9 witness at a concrete store and mode. -/
theorem setLtAuthMode_frame_witness :
    ltStoredUser (setLtAuthMode ⟨none, none⟩ .jwt) = ltStoredUser ⟨none, none⟩ ∧
    isLtAuthenticated (setLtAuthMode ⟨none, none⟩ .jwt) =
      isLtAuthenticated ⟨none, none⟩ ∧
    getLtAuthMode (setLtAuthMode ⟨none, none⟩ .jwt) = .jwt ∧
    (setLtAuthMode ⟨none, none⟩ .jwt).jwtToken = (⟨none, none⟩ : LtStore).jwtToken ∧
    ((⟨none, none⟩ : LtStore).authState = none →
      (setLtAuthMode ⟨none, none⟩ .jwt).authState =
        some { user := none, authMode := .jwt }) :=
  setLtAuthMode_frame ⟨none, none⟩ .jwt

/-- C10: a failed `attemptLtJwtSwitch` leaves the stored state exactly as it
was: the mode, the token — indeed the whole store — are unchanged. -/
theorem attemptLtJwtSwitch_failure_atomic (b : LtTokenBackend) (st : LtStore)
    (h : (attemptLtJwtSwitch b st).1 = false) :
    getLtAuthMode (attemptLtJwtSwitch b st).2 = getLtAuthMode st ∧
    getLtJwtToken (attemptLtJwtSwitch b st).2 = getLtJwtToken st ∧
    (attemptLtJwtSwitch b st).2 = st := by
  have hst : (attemptLtJwtSwitch b st).2 = st := by
    cases b with
    | none => rfl
    | some resp =>
      simp only [attemptLtJwtSwitch] at h ⊢
      split at h
      · cases hj : resp.json with
        | none => simp [hj]
        | some tokenField =>
          simp only [hj] at h ⊢
          split at h
          · simp at h
          · simp_all
      · simp_all
  exact ⟨by rw [hst], by rw [hst], hst⟩

/-- C10 witness: an unreachable token endpoint changes nothing. -/
theorem attemptLtJwtSwitch_failure_atomic_witness :
    getLtAuthMode (attemptLtJwtSwitch none ⟨none, some "t"⟩).2 =
      getLtAuthMode ⟨none, some "t"⟩ ∧
    getLtJwtToken (attemptLtJwtSwitch none ⟨none, some "t"⟩).2 =
      getLtJwtToken ⟨none, some "t"⟩ ∧
    (attemptLtJwtSwitch none ⟨none, some "t"⟩).2 = ⟨none, some "t"⟩ :=
  attemptLtJwtSwitch_failure_atomic none ⟨none, some "t"⟩ rfl

/-- C1: every credential-transmitting override of `createLtAuthClient`
invokes the provider with every password field replaced by its digest —
never the plaintext, as soon as the digest differs from it — and passes all
other fields through unchanged. -/
theorem ltAuthClient_passwords_hashed (sha : String → String)
    (p1 : LtSignInEmailParams) (p2 : LtSignUpEmailParams)
    (p3 : LtChangePasswordParams) (p4 : LtResetPasswordParams)
    (p5 p6 p7 : LtTwoFactorPasswordParams) :
    (ltSignInEmailSent sha p1).password = sha p1.password ∧
    (ltSignInEmailSent sha p1).email = p1.email ∧
    (ltSignInEmailSent sha p1).rememberMe = p1.rememberMe ∧
    (sha p1.password ≠ p1.password →
      (ltSignInEmailSent sha p1).password ≠ p1.password) ∧
    (ltSignUpEmailSent sha p2).password = sha p2.password ∧
    (ltSignUpEmailSent sha p2).email = p2.email ∧
    (ltSignUpEmailSent sha p2).name = p2.name ∧
    (ltSignUpEmailSent sha p2).extra = p2.extra ∧
    (sha p2.password ≠ p2.password →
      (ltSignUpEmailSent sha p2).password ≠ p2.password) ∧
    (ltChangePasswordSent sha p3).currentPassword = sha p3.currentPassword ∧
    (ltChangePasswordSent sha p3).newPassword = sha p3.newPassword ∧
    (ltResetPasswordSent sha p4).newPassword = sha p4.newPassword ∧
    (ltResetPasswordSent sha p4).token = p4.token ∧
    (ltTwoFactorEnableSent sha p5).password = sha p5.password ∧
    (ltTwoFactorDisableSent sha p6).password = sha p6.password ∧
    (ltTwoFactorGenerateBackupCodesSent sha p7).password = sha p7.password := by
  refine ⟨rfl, rfl, rfl, fun h => h, rfl, rfl, rfl, rfl, fun h => h,
    rfl, rfl, rfl, rfl, rfl, rfl, rfl⟩

/-- C1 witness: a concrete injective-enough digest and concrete parameters. -/
theorem ltAuthClient_passwords_hashed_witness :
    (ltSignInEmailSent (fun s => s ++ "#") ⟨"a@b", "pw", none⟩).password =
      (fun s => s ++ "#") "pw" ∧
    (ltSignInEmailSent (fun s => s ++ "#") ⟨"a@b", "pw", none⟩).email = "a@b" ∧
    (ltSignInEmailSent (fun s => s ++ "#") ⟨"a@b", "pw", none⟩).rememberMe = none ∧
    ((fun s => s ++ "#") "pw" ≠ "pw" →
      (ltSignInEmailSent (fun s => s ++ "#") ⟨"a@b", "pw", none⟩).password ≠ "pw") ∧
    (ltSignUpEmailSent (fun s => s ++ "#") ⟨"a@b", "n", "pw", []⟩).password =
      (fun s => s ++ "#") "pw" ∧
    (ltSignUpEmailSent (fun s => s ++ "#") ⟨"a@b", "n", "pw", []⟩).email = "a@b" ∧
    (ltSignUpEmailSent (fun s => s ++ "#") ⟨"a@b", "n", "pw", []⟩).name = "n" ∧
    (ltSignUpEmailSent (fun s => s ++ "#") ⟨"a@b", "n", "pw", []⟩).extra = [] ∧
    ((fun s => s ++ "#") "pw" ≠ "pw" →
      (ltSignUpEmailSent (fun s => s ++ "#") ⟨"a@b", "n", "pw", []⟩).password ≠ "pw") ∧
    (ltChangePasswordSent (fun s => s ++ "#") ⟨"old", "new"⟩).currentPassword =
      (fun s => s ++ "#") "old" ∧
    (ltChangePasswordSent (fun s => s ++ "#") ⟨"old", "new"⟩).newPassword =
      (fun s => s ++ "#") "new" ∧
    (ltResetPasswordSent (fun s => s ++ "#") ⟨"new", "tk"⟩).newPassword =
      (fun s => s ++ "#") "new" ∧
    (ltResetPasswordSent (fun s => s ++ "#") ⟨"new", "tk"⟩).token = "tk" ∧
    (ltTwoFactorEnableSent (fun s => s ++ "#") ⟨"pw"⟩).password =
      (fun s => s ++ "#") "pw" ∧
    (ltTwoFactorDisableSent (fun s => s ++ "#") ⟨"pw"⟩).password =
      (fun s => s ++ "#") "pw" ∧
    (ltTwoFactorGenerateBackupCodesSent (fun s => s ++ "#") ⟨"pw"⟩).password =
      (fun s => s ++ "#") "pw" :=
  ltAuthClient_passwords_hashed (fun s => s ++ "#") ⟨"a@b", "pw", none⟩
    ⟨"a@b", "n", "pw", []⟩ ⟨"old", "new"⟩ ⟨"new", "tk"⟩ ⟨"pw"⟩ ⟨"pw"⟩ ⟨"pw"⟩

/-- C8: registering plugins after the singleton exists makes the next
`getOrCreateLtAuthClient` call build exactly one new instance whose plugin
list is the built-ins, then the config-supplied plugins, then the previous
registry followed by the newly registered plugins; a second consecutive
call returns that same instance without building another. -/
theorem ltRegisterAfterSingleton_rebuild_once (ms : LtClientModuleState)
    (ps : List LtPlugin) (c0 : LtClient)
    (hsingleton : ms.singleton = some c0) :
    (getOrCreateLtAuthClient (registerLtAuthPlugins ms ps) none).1.plugins =
      ltClientPlugins (ms.lastConfig.getD {}) (ms.registry ++ ps) ∧
    (getOrCreateLtAuthClient (registerLtAuthPlugins ms ps) none).1.instanceId =
      ms.created ∧
    (getOrCreateLtAuthClient (registerLtAuthPlugins ms ps) none).2.created =
      ms.created + 1 ∧
    (getOrCreateLtAuthClient
        (getOrCreateLtAuthClient (registerLtAuthPlugins ms ps) none).2 none).1 =
      (getOrCreateLtAuthClient (registerLtAuthPlugins ms ps) none).1 ∧
    (getOrCreateLtAuthClient
        (getOrCreateLtAuthClient (registerLtAuthPlugins ms ps) none).2 none).2 =
      (getOrCreateLtAuthClient (registerLtAuthPlugins ms ps) none).2 := by
  simp [getOrCreateLtAuthClient, registerLtAuthPlugins, hsingleton,
    createLtAuthClient]

/-- C8 witness: a concrete module state with an existing singleton and one
newly registered plugin. -/
theorem ltRegisterAfterSingleton_rebuild_once_witness :
    (getOrCreateLtAuthClient
        (registerLtAuthPlugins
          { registry := [.external "m"], pluginsChanged := false,
            singleton := some { plugins := [], instanceId := 0 },
            lastConfig := none, created := 1 }
          [.external "org"]) none).1.plugins =
      ltClientPlugins
        (Option.getD
          (LtClientModuleState.lastConfig
            { registry := [.external "m"], pluginsChanged := false,
              singleton := some { plugins := [], instanceId := 0 },
              lastConfig := none, created := 1 }) {})
        ([.external "m"] ++ [.external "org"]) ∧
    (getOrCreateLtAuthClient
        (registerLtAuthPlugins
          { registry := [.external "m"], pluginsChanged := false,
            singleton := some { plugins := [], instanceId := 0 },
            lastConfig := none, created := 1 }
          [.external "org"]) none).1.instanceId = 1 ∧
    (getOrCreateLtAuthClient
        (registerLtAuthPlugins
          { registry := [.external "m"], pluginsChanged := false,
            singleton := some { plugins := [], instanceId := 0 },
            lastConfig := none, created := 1 }
          [.external "org"]) none).2.created = 1 + 1 ∧
    (getOrCreateLtAuthClient
        (getOrCreateLtAuthClient
          (registerLtAuthPlugins
            { registry := [.external "m"], pluginsChanged := false,
              singleton := some { plugins := [], instanceId := 0 },
              lastConfig := none, created := 1 }
            [.external "org"]) none).2 none).1 =
      (getOrCreateLtAuthClient
        (registerLtAuthPlugins
          { registry := [.external "m"], pluginsChanged := false,
            singleton := some { plugins := [], instanceId := 0 },
            lastConfig := none, created := 1 }
          [.external "org"]) none).1 ∧
    (getOrCreateLtAuthClient
        (getOrCreateLtAuthClient
          (registerLtAuthPlugins
            { registry := [.external "m"], pluginsChanged := false,
              singleton := some { plugins := [], instanceId := 0 },
              lastConfig := none, created := 1 }
            [.external "org"]) none).2 none).2 =
      (getOrCreateLtAuthClient
        (registerLtAuthPlugins
          { registry := [.external "m"], pluginsChanged := false,
            singleton := some { plugins := [], instanceId := 0 },
            lastConfig := none, created := 1 }
          [.external "org"]) none).2 :=
  ltRegisterAfterSingleton_rebuild_once
    { registry := [.external "m"], pluginsChanged := false,
      singleton := some { plugins := [], instanceId := 0 },
      lastConfig := none, created := 1 }
    [.external "org"] { plugins := [], instanceId := 0 } rfl

lemma b64Index_b64Char {n : Nat} (h : n < 64) :
    b64Index (b64Char n) = some n := by
  have key : ∀ i : Fin 64, b64Index (b64Char i.1) = some i.1 := by decide
  exact key ⟨n, h⟩

lemma b64_unsubst_subst {n : Nat} (h : n < 64) :
    b64UrlUnsubst (b64UrlSubst (b64Char n)) = b64Char n := by
  have key : ∀ i : Fin 64,
      b64UrlUnsubst (b64UrlSubst (b64Char i.1)) = b64Char i.1 := by decide
  exact key ⟨n, h⟩

lemma b64_subst_ne_pad {n : Nat} (h : n < 64) :
    (b64UrlSubst (b64Char n) != '=') = true := by
  have key : ∀ i : Fin 64, (b64UrlSubst (b64Char i.1) != '=') = true := by
    decide
  exact key ⟨n, h⟩

lemma b64Char_ne_pad {n : Nat} (h : n < 64) : (b64Char n == '=') = false := by
  have key : ∀ i : Fin 64, (b64Char i.1 == '=') = false := by decide
  exact key ⟨n, h⟩

lemma b64UrlSubst_pad : b64UrlSubst '=' = '=' := by decide

/-- C7: the URL-safe binary codec pair round-trips: decoding an encoded
byte buffer recovers it exactly, for every buffer of bytes. -/
theorem lt_base64url_roundtrip :
    ∀ (b : List Nat), (∀ x ∈ b, x < 256) →
      ltBase64UrlToUint8Array (ltArrayBufferToBase64Url b) = some b
  | [], _ => by decide
  | [b0], h => by
    have h0 : b0 < 256 := h b0 (by simp)
    have hs0 : b0 / 4 < 64 := by omega
    have hs1 : b0 % 4 * 16 < 64 := by omega
    have hE : ltArrayBufferToBase64Url [b0] =
        [b64UrlSubst (b64Char (b0 / 4)), b64UrlSubst (b64Char (b0 % 4 * 16))] := by
      simp [ltArrayBufferToBase64Url, btoaChunks, List.filter_cons,
        b64_subst_ne_pad hs0, b64_subst_ne_pad hs1, b64UrlSubst_pad]
    rw [hE]
    simp only [ltBase64UrlToUint8Array, List.map_cons, List.map_nil,
      b64_unsubst_subst hs0, b64_unsubst_subst hs1, List.length_cons,
      List.length_nil]
    norm_num [List.replicate]
    simp [atobChunks, b64Index_b64Char hs0, b64Index_b64Char hs1]
    omega
  | [b0, b1], h => by
    have h0 : b0 < 256 := h b0 (by simp)
    have h1 : b1 < 256 := h b1 (by simp)
    have hs0 : b0 / 4 < 64 := by omega
    have hs1 : b0 % 4 * 16 + b1 / 16 < 64 := by omega
    have hs2 : b1 % 16 * 4 < 64 := by omega
    have hE : ltArrayBufferToBase64Url [b0, b1] =
        [b64UrlSubst (b64Char (b0 / 4)),
          b64UrlSubst (b64Char (b0 % 4 * 16 + b1 / 16)),
          b64UrlSubst (b64Char (b1 % 16 * 4))] := by
      simp [ltArrayBufferToBase64Url, btoaChunks, List.filter_cons,
        b64_subst_ne_pad hs0, b64_subst_ne_pad hs1, b64_subst_ne_pad hs2,
        b64UrlSubst_pad]
    rw [hE]
    simp only [ltBase64UrlToUint8Array, List.map_cons, List.map_nil,
      b64_unsubst_subst hs0, b64_unsubst_subst hs1, b64_unsubst_subst hs2,
      List.length_cons, List.length_nil]
    norm_num [List.replicate]
    simp [atobChunks, b64Index_b64Char hs0, b64Index_b64Char hs1,
      b64Index_b64Char hs2, b64Char_ne_pad hs2]
    constructor
    · omega
    · omega
  | b0 :: b1 :: b2 :: rest, h => by
    have ih := lt_base64url_roundtrip rest (fun x hx => h x (by simp [hx]))
    have h0 : b0 < 256 := h b0 (by simp)
    have h1 : b1 < 256 := h b1 (by simp)
    have h2 : b2 < 256 := h b2 (by simp)
    have hs0 : b0 / 4 < 64 := by omega
    have hs1 : b0 % 4 * 16 + b1 / 16 < 64 := by omega
    have hs2 : b1 % 16 * 4 + b2 / 64 < 64 := by omega
    have hs3 : b2 % 64 < 64 := by omega
    have hE : ltArrayBufferToBase64Url (b0 :: b1 :: b2 :: rest) =
        b64UrlSubst (b64Char (b0 / 4)) ::
        b64UrlSubst (b64Char (b0 % 4 * 16 + b1 / 16)) ::
        b64UrlSubst (b64Char (b1 % 16 * 4 + b2 / 64)) ::
        b64UrlSubst (b64Char (b2 % 64)) :: ltArrayBufferToBase64Url rest := by
      simp [ltArrayBufferToBase64Url, btoaChunks, List.filter_cons,
        b64_subst_ne_pad hs0, b64_subst_ne_pad hs1, b64_subst_ne_pad hs2,
        b64_subst_ne_pad hs3]
    have iht : atobChunks
        ((ltArrayBufferToBase64Url rest).map b64UrlUnsubst ++
          List.replicate
            ((4 - ((ltArrayBufferToBase64Url rest).map b64UrlUnsubst).length % 4)
              % 4) '=') = some rest := by
      simpa [ltBase64UrlToUint8Array] using ih
    rw [hE]
    simp only [ltBase64UrlToUint8Array, List.map_cons,
      b64_unsubst_subst hs0, b64_unsubst_subst hs1, b64_unsubst_subst hs2,
      b64_unsubst_subst hs3, List.length_cons]
    have hlen : ∀ L : Nat, (4 - (L + 1 + 1 + 1 + 1) % 4) % 4 = (4 - L % 4) % 4 := by
      omega
    rw [hlen]
    simp only [List.cons_append]
    simp only [atobChunks, List.isEmpty_eq_true, List.append_eq_nil,
      b64Char_ne_pad hs2, b64Char_ne_pad hs3, Bool.and_false, Bool.false_and,
      Bool.and_eq_true, if_neg, Bool.false_eq_true, not_false_eq_true,
      b64Index_b64Char hs0, b64Index_b64Char hs1, b64Index_b64Char hs2,
      b64Index_b64Char hs3, iht]
    simp only [Option.some.injEq, List.cons.injEq]
    exact ⟨by omega, by omega, by omega, trivial⟩

/-- C7 witness: concrete buffers of lengths 0, 1, 2, 3 and 5 whose bytes
include 0x00 and 0xFF round-trip. -/
theorem lt_base64url_roundtrip_witness :
    ((∀ x ∈ ([] : List Nat), x < 256) ∧
      ltBase64UrlToUint8Array (ltArrayBufferToBase64Url []) = some []) ∧
    ((∀ x ∈ [0], x < 256) ∧
      ltBase64UrlToUint8Array (ltArrayBufferToBase64Url [0]) = some [0]) ∧
    ((∀ x ∈ [255], x < 256) ∧
      ltBase64UrlToUint8Array (ltArrayBufferToBase64Url [255]) = some [255]) ∧
    ((∀ x ∈ [0, 255], x < 256) ∧
      ltBase64UrlToUint8Array (ltArrayBufferToBase64Url [0, 255]) =
        some [0, 255]) ∧
    ((∀ x ∈ [255, 0, 1], x < 256) ∧
      ltBase64UrlToUint8Array (ltArrayBufferToBase64Url [255, 0, 1]) =
        some [255, 0, 1]) ∧
    ((∀ x ∈ [0, 255, 7, 99, 250], x < 256) ∧
      ltBase64UrlToUint8Array (ltArrayBufferToBase64Url [0, 255, 7, 99, 250]) =
        some [0, 255, 7, 99, 250]) :=
  ⟨⟨by decide, lt_base64url_roundtrip [] (by decide)⟩,
    ⟨by decide, lt_base64url_roundtrip [0] (by decide)⟩,
    ⟨by decide, lt_base64url_roundtrip [255] (by decide)⟩,
    ⟨by decide, lt_base64url_roundtrip [0, 255] (by decide)⟩,
    ⟨by decide, lt_base64url_roundtrip [255, 0, 1] (by decide)⟩,
    ⟨by decide, lt_base64url_roundtrip [0, 255, 7, 99, 250] (by decide)⟩⟩

/-- C5 counterexample: when the provider `signOut` call throws, the
composable `signOut` does **not** clear the local state — `clearUser()`
sits after the `await` inside the `try` block, so a rejected provider call
skips it: the user survives, `isAuthenticated` stays true and the bearer
token is kept. -/
theorem ltSignOut_throw_counterexample :
    (signOutC (.error ())
        { authState := some { user := some "alice", authMode := .jwt },
          jwtToken := some "tok", isLoading := false }).2.authState =
      some { user := some "alice", authMode := .jwt } ∧
    isAuthenticatedC (signOutC (.error ())
        { authState := some { user := some "alice", authMode := .jwt },
          jwtToken := some "tok", isLoading := false }).2 = true ∧
    (signOutC (.error ())
        { authState := some { user := some "alice", authMode := .jwt },
          jwtToken := some "tok", isLoading := false }).2.jwtToken =
      some "tok" :=
  ⟨rfl, rfl, rfl⟩

/-- C5 (amended): when the provider call returns normally — including
provider-reported failures, which Better Auth surfaces as returned error
objects rather than rejections — `signOut` clears the local state
(`{user: null, authMode: cookie}`, token cleared, `isAuthenticated`
false); when the provider call throws, the rejection propagates and the
local auth state and token are unchanged; `isLoading` is reset on both
paths. -/
theorem ltSignOut_amended (provider : Except Unit Unit) (st : LtCompState) :
    (signOutC provider st).2.isLoading = false ∧
    (provider = .ok () →
      (signOutC provider st).2.authState =
        some { user := none, authMode := .cookie } ∧
      (signOutC provider st).2.jwtToken = none ∧
      isAuthenticatedC (signOutC provider st).2 = false) ∧
    (provider = .error () →
      (signOutC provider st).2.authState = st.authState ∧
      (signOutC provider st).2.jwtToken = st.jwtToken ∧
      (signOutC provider st).1 = .error ()) := by
  cases provider <;>
    simp [signOutC, clearUserC, isAuthenticatedC]

/-- C5 witness: the amended theorem applied to a throwing provider and a
logged-in state. -/
theorem ltSignOut_amended_witness :
    (signOutC (.error ())
        { authState := some { user := some "alice", authMode := .cookie },
          jwtToken := some "tok", isLoading := false }).2.isLoading = false ∧
    ((.error () : Except Unit Unit) = .ok () →
      (signOutC (.error ())
          { authState := some { user := some "alice", authMode := .cookie },
            jwtToken := some "tok", isLoading := false }).2.authState =
        some { user := none, authMode := .cookie } ∧
      (signOutC (.error ())
          { authState := some { user := some "alice", authMode := .cookie },
            jwtToken := some "tok", isLoading := false }).2.jwtToken = none ∧
      isAuthenticatedC (signOutC (.error ())
          { authState := some { user := some "alice", authMode := .cookie },
            jwtToken := some "tok", isLoading := false }).2 = false) ∧
    ((.error () : Except Unit Unit) = .error () →
      (signOutC (.error ())
          { authState := some { user := some "alice", authMode := .cookie },
            jwtToken := some "tok", isLoading := false }).2.authState =
        ({ authState := some { user := some "alice", authMode := .cookie },
            jwtToken := some "tok", isLoading := false } : LtCompState).authState ∧
      (signOutC (.error ())
          { authState := some { user := some "alice", authMode := .cookie },
            jwtToken := some "tok", isLoading := false }).2.jwtToken =
        ({ authState := some { user := some "alice", authMode := .cookie },
            jwtToken := some "tok", isLoading := false } : LtCompState).jwtToken ∧
      (signOutC (.error ())
          { authState := some { user := some "alice", authMode := .cookie },
            jwtToken := some "tok", isLoading := false }).1 = .error ()) :=
  ltSignOut_amended (.error ())
    { authState := some { user := some "alice", authMode := .cookie },
      jwtToken := some "tok", isLoading := false }

lemma getAuthModeC_jwt_isSome (st : LtCompState)
    (h : getAuthModeC st = .jwt) : st.authState.isSome := by
  cases hs : st.authState with
  | none => rw [getAuthModeC, hs] at h; exact absurd h (by simp)
  | some s => rfl

lemma switchToJwtModeC_fst (b : LtTokenBackend) (st : LtCompState) :
    (switchToJwtModeC b st).1 = ltTokenGranted b := by
  cases b with
  | none => rfl
  | some resp =>
    simp only [switchToJwtModeC, ltTokenGranted]
    cases h : resp.ok <;> cases hj : resp.json <;> simp [h, hj]
    split <;> simp_all

lemma switchToJwtModeC_not_granted (b : LtTokenBackend) (st : LtCompState)
    (h : ltTokenGranted b = false) : (switchToJwtModeC b st).2 = st := by
  cases b with
  | none => rfl
  | some resp =>
    simp only [ltTokenGranted] at h
    simp only [switchToJwtModeC]
    cases hok : resp.ok with
    | false => simp
    | true =>
      simp only [hok, Bool.true_and] at h
      cases hj : resp.json with
      | none => simp
      | some tokenField =>
        rw [hj] at h
        simp only [] at h
        simp [h]

lemma switchToJwtModeC_granted_some (b : LtTokenBackend) (st : LtCompState)
    (hs : st.authState.isSome) (hg : ltTokenGranted b = true) :
    getAuthModeC (switchToJwtModeC b st).2 = .jwt := by
  obtain ⟨s, hss⟩ := Option.isSome_iff_exists.mp hs
  cases b with
  | none => exact absurd hg (by simp [ltTokenGranted])
  | some resp =>
    simp only [ltTokenGranted] at hg
    cases hok : resp.ok with
    | false => rw [hok] at hg; exact absurd hg (by simp)
    | true =>
      simp only [hok, Bool.true_and] at hg
      cases hj : resp.json with
      | none => rw [hj] at hg; exact absurd hg (by simp)
      | some tokenField =>
        rw [hj] at hg
        simp only [] at hg
        simp [switchToJwtModeC, hok, hj, hg, hss, getAuthModeC]

lemma switchToJwtModeC_jwt (b : LtTokenBackend) (st : LtCompState)
    (h : getAuthModeC st = .jwt) :
    getAuthModeC (switchToJwtModeC b st).2 = .jwt := by
  cases hg : ltTokenGranted b with
  | false => rw [switchToJwtModeC_not_granted b st hg]; exact h
  | true => exact switchToJwtModeC_granted_some b st (getAuthModeC_jwt_isSome st h) hg

lemma isJwtModeC_of_jwt (st : LtCompState) (h : getAuthModeC st = .jwt) :
    isJwtModeC st = true := by
  simp [isJwtModeC, h]

lemma fetchWithAuthC_jwt {α : Type} (fb : LtFetchWABackend α)
    (st : LtCompState) (h : getAuthModeC st = .jwt) :
    (fetchWithAuthC fb st).2 = st := by
  simp only [fetchWithAuthC]
  cases fb.resp with
  | none => rfl
  | some r =>
    simp [isJwtModeC_of_jwt st h]

lemma authenticateWithPasskeyBody_jwt (env : LtPasskeyEnv) (st : LtCompState)
    (h : getAuthModeC st = .jwt) :
    getAuthModeC (authenticateWithPasskeyBody env st).2 = .cookie →
      (authenticateWithPasskeyBody env st).1.success = true ∧
      ((authenticateWithPasskeyBody env st).1.user).isSome = true := by
  intro hc
  rcases st with ⟨sas, stok, sload⟩
  cases sas with
  | none => simp [getAuthModeC] at h
  | some s =>
    simp only [getAuthModeC] at h
    have hmode : getAuthModeC ⟨some s, stok, sload⟩ = .jwt := by
      simp [getAuthModeC, h]
    unfold authenticateWithPasskeyBody at hc ⊢
    rcases ho : fetchWithAuthC env.optionsFW ⟨some s, stok, sload⟩ with ⟨o1, st1⟩
    have hst1 : st1 = ⟨some s, stok, sload⟩ := by
      have hx := fetchWithAuthC_jwt env.optionsFW ⟨some s, stok, sload⟩ hmode
      rw [ho] at hx
      exact hx
    subst hst1
    simp only [ho] at hc ⊢
    cases o1 with
    | none => simp [getAuthModeC, h] at hc
    | some oResp =>
      cases hok : ltRespOk oResp with
      | false => simp [hok, getAuthModeC, h] at hc
      | true =>
        simp only [hok, Bool.not_true, Bool.false_eq_true, if_false] at hc ⊢
        cases hjson : oResp.json with
        | none => simp [hjson, getAuthModeC, h] at hc
        | some opts =>
          simp only [hjson] at hc ⊢
          cases hdec : ltBase64UrlToUint8Array opts.challenge with
          | none => simp [hdec, getAuthModeC, h] at hc
          | some cb =>
            simp only [hdec] at hc ⊢
            rcases hcred : env.credential with _ | cOpt
            · simp [hcred, getAuthModeC, h] at hc
            · cases cOpt with
              | none => simp [hcred, getAuthModeC, h] at hc
              | some cred =>
                simp only [hcred] at hc ⊢
                rcases hv : fetchWithAuthC env.verifyFW ⟨some s, stok, sload⟩
                  with ⟨v1, st2⟩
                have hst2 : st2 = ⟨some s, stok, sload⟩ := by
                  have hx := fetchWithAuthC_jwt env.verifyFW ⟨some s, stok, sload⟩
                    hmode
                  rw [hv] at hx
                  exact hx
                subst hst2
                simp only [hv] at hc ⊢
                cases v1 with
                | none => simp [getAuthModeC, h] at hc
                | some vResp =>
                  cases hvj : vResp.json with
                  | none => simp [hvj, getAuthModeC, h] at hc
                  | some result =>
                    simp only [hvj] at hc ⊢
                    cases hvok : ltRespOk vResp with
                    | false => simp [hvok, getAuthModeC, h] at hc
                    | true =>
                      simp only [hvok, Bool.not_true, Bool.false_eq_true,
                        if_false] at hc ⊢
                      cases hru : result.user with
                      | some u => simp [hru]
                      | none =>
                        simp only [hru] at hc ⊢
                        cases hrt : ltTruthy result.sessionToken with
                        | false => simp [hrt, getAuthModeC, h] at hc
                        | true =>
                          simp only [hrt, if_true] at hc ⊢
                          rcases hs5 : fetchWithAuthC env.sessionFW
                              ⟨some { user := s.user, authMode := .jwt },
                                result.sessionToken, sload⟩ with ⟨s1, st5⟩
                          have hst5 : st5 =
                              ⟨some { user := s.user, authMode := .jwt },
                                result.sessionToken, sload⟩ := by
                            have hx := fetchWithAuthC_jwt env.sessionFW
                              ⟨some { user := s.user, authMode := .jwt },
                                result.sessionToken, sload⟩
                              (by simp [getAuthModeC])
                            rw [hs5] at hx
                            exact hx
                          subst hst5
                          simp only [hs5] at hc ⊢
                          cases s1 with
                          | none => simp [getAuthModeC] at hc
                          | some sResp =>
                            cases hsok : ltRespOk sResp with
                            | false => simp [hsok, getAuthModeC] at hc
                            | true =>
                              simp only [hsok, if_true] at hc ⊢
                              cases hsj : sResp.json with
                              | none => simp [hsj, getAuthModeC] at hc
                              | some sData =>
                                simp only [hsj] at hc ⊢
                                cases hsu : sData.user with
                                | some su => simp [hsu]
                                | none => simp [hsu, getAuthModeC] at hc

lemma getAuthModeC_setLoading (st : LtCompState) (b : Bool) :
    getAuthModeC { st with isLoading := b } = getAuthModeC st := by
  rcases st with ⟨sas, stok, sload⟩
  rfl

/-- C6 counterexample: from a jwt-mode authenticated state, a
`validateSession()` whose provider session reports a user — with the
background token re-fetch failing — ends with `authMode = cookie`:
`setUser` with mode `cookie` performs a jwt→cookie transition without any
logout. -/
theorem ltValidateSession_jwt_downgrade_counterexample :
    getAuthModeC
      { authState := some { user := some "alice", authMode := .jwt },
        jwtToken := some "tok", isLoading := false } = .jwt ∧
    getAuthModeC (validateSessionC (.ok (some "alice")) none
      { authState := some { user := some "alice", authMode := .jwt },
        jwtToken := some "tok", isLoading := false }).2 = .cookie ∧
    (validateSessionC (.ok (some "alice")) none
      { authState := some { user := some "alice", authMode := .jwt },
        jwtToken := some "tok", isLoading := false }).2.authState =
      some { user := some "alice", authMode := .cookie } :=
  ⟨rfl, rfl, rfl⟩

/-- C6 (amended): from a jwt-mode state, `validateSession` moves the mode
back to cookie only when the provider session reports a user (which it
adopts via `setUser` with mode `cookie`) and the background token re-fetch
does not succeed; `fetchWithAuth` and `switchToJwtMode` never leave jwt
mode; `authenticateWithPasskey` ends in cookie mode only when it returns a
successful login that adopted a user; an explicit logout (`clearUser`)
resets the mode to cookie. -/
theorem ltJwtMode_no_auto_downgrade (st : LtCompState)
    (sess : Except Unit (Option LtUser)) (tokenB : LtTokenBackend)
    {α : Type} (fb : LtFetchWABackend α) (env : LtPasskeyEnv)
    (hjwt : getAuthModeC st = .jwt) :
    (getAuthModeC (validateSessionC sess tokenB st).2 = .cookie →
      (∃ u, sess = .ok (some u)) ∧ ltTokenGranted tokenB = false) ∧
    (fetchWithAuthC fb st).2 = st ∧
    getAuthModeC (switchToJwtModeC tokenB st).2 = .jwt ∧
    (getAuthModeC (authenticateWithPasskeyC env st).2 = .cookie →
      (authenticateWithPasskeyC env st).1.success = true ∧
      ((authenticateWithPasskeyC env st).1.user).isSome = true) ∧
    getAuthModeC (clearUserC st) = .cookie := by
  refine ⟨?_, fetchWithAuthC_jwt fb st hjwt,
    switchToJwtModeC_jwt tokenB st hjwt, ?_, ?_⟩
  · intro hc
    cases sess with
    | error e =>
      simp only [validateSessionC] at hc
      rw [hjwt] at hc
      exact absurd hc (by simp)
    | ok su =>
      cases su with
      | none =>
        simp only [validateSessionC] at hc
        cases hauth : isAuthenticatedC st with
        | true =>
          simp only [hauth, if_true] at hc
          rw [switchToJwtModeC_jwt tokenB st hjwt] at hc
          exact absurd hc (by simp)
        | false =>
          simp only [hauth, Bool.false_eq_true, if_false] at hc
          rw [hjwt] at hc
          exact absurd hc (by simp)
      | some u =>
        refine ⟨⟨u, rfl⟩, ?_⟩
        cases hg : ltTokenGranted tokenB with
        | false => rfl
        | true =>
          exfalso
          have hj : getAuthModeC (validateSessionC (.ok (some u)) tokenB st).2 =
              .jwt := by
            simp only [validateSessionC]
            exact switchToJwtModeC_granted_some tokenB
              (setUserC st (some u) .cookie) (by simp [setUserC]) hg
          rw [hj] at hc
          exact absurd hc (by simp)
  · intro hc
    simp only [authenticateWithPasskeyC, getAuthModeC_setLoading] at hc ⊢
    exact authenticateWithPasskeyBody_jwt env { st with isLoading := true }
      (by rw [getAuthModeC_setLoading]; exact hjwt) hc
  · rcases st with ⟨sas, stok, sload⟩
    simp [clearUserC, getAuthModeC]

/-- C6 witness: the amended theorem applied to a concrete jwt-mode state
with a failing session query, unreachable endpoints and a rejected
ceremony. -/
theorem ltJwtMode_no_auto_downgrade_witness :
    (getAuthModeC (validateSessionC (.error ()) none
        { authState := some { user := some "alice", authMode := .jwt },
          jwtToken := some "tok", isLoading := false }).2 = .cookie →
      (∃ u, (.error () : Except Unit (Option LtUser)) = .ok (some u)) ∧
        ltTokenGranted none = false) ∧
    (fetchWithAuthC ({ resp := none, tokenB := none, retryResp := none } :
        LtFetchWABackend Unit)
      { authState := some { user := some "alice", authMode := .jwt },
        jwtToken := some "tok", isLoading := false }).2 =
      { authState := some { user := some "alice", authMode := .jwt },
        jwtToken := some "tok", isLoading := false } ∧
    getAuthModeC (switchToJwtModeC none
      { authState := some { user := some "alice", authMode := .jwt },
        jwtToken := some "tok", isLoading := false }).2 = .jwt ∧
    (getAuthModeC (authenticateWithPasskeyC
        { optionsFW := { resp := none, tokenB := none, retryResp := none },
          credential := none,
          verifyFW := { resp := none, tokenB := none, retryResp := none },
          postUserTokenB := none,
          sessionFW := { resp := none, tokenB := none, retryResp := none },
          postSessionTokenB := none }
        { authState := some { user := some "alice", authMode := .jwt },
          jwtToken := some "tok", isLoading := false }).2 = .cookie →
      (authenticateWithPasskeyC
        { optionsFW := { resp := none, tokenB := none, retryResp := none },
          credential := none,
          verifyFW := { resp := none, tokenB := none, retryResp := none },
          postUserTokenB := none,
          sessionFW := { resp := none, tokenB := none, retryResp := none },
          postSessionTokenB := none }
        { authState := some { user := some "alice", authMode := .jwt },
          jwtToken := some "tok", isLoading := false }).1.success = true ∧
      ((authenticateWithPasskeyC
        { optionsFW := { resp := none, tokenB := none, retryResp := none },
          credential := none,
          verifyFW := { resp := none, tokenB := none, retryResp := none },
          postUserTokenB := none,
          sessionFW := { resp := none, tokenB := none, retryResp := none },
          postSessionTokenB := none }
        { authState := some { user := some "alice", authMode := .jwt },
          jwtToken := some "tok", isLoading := false }).1.user).isSome = true) ∧
    getAuthModeC (clearUserC
      { authState := some { user := some "alice", authMode := .jwt },
        jwtToken := some "tok", isLoading := false }) = .cookie :=
  ltJwtMode_no_auto_downgrade
    { authState := some { user := some "alice", authMode := .jwt },
      jwtToken := some "tok", isLoading := false }
    (.error ()) none
    ({ resp := none, tokenB := none, retryResp := none } : LtFetchWABackend Unit)
    { optionsFW := { resp := none, tokenB := none, retryResp := none },
      credential := none,
      verifyFW := { resp := none, tokenB := none, retryResp := none },
      postUserTokenB := none,
      sessionFW := { resp := none, tokenB := none, retryResp := none },
      postSessionTokenB := none }
    rfl
